import Mathlib

/-!
Verification of the gmapsdatalib data-acquisition utility (src/gmapsdatalib.py).

Shallow embedding conventions:
* Python floats are modelled as exact rationals (ℚ); latitude/longitude pairs
  become `ℚ × ℚ`.
* The external geopy geodesic distance is an external collaborator: the two
  distances `geopy.distance.geodesic(center, bottom_right)` and
  `geopy.distance.geodesic(center, top_left)` (in kilometers) enter `gridMaker`
  as the parameters `vxNorm` and `vyNorm`.
* The remote HTTP service is an external collaborator: each grid point or place
  id is paired with the JSON body the service returns for it.  A nearby-search
  body is modelled by its top-level `status` field (an `Option String`, `none`
  standing for a malformed body that lacks the field) and its `results` array
  reduced to the `place_id` of each entry; a place-details body is modelled by
  its `status` field and its opaque `result` record.
* Fallible Python code returns `Except PyExc`; raising an exception is
  returning `.error`.
* The filesystem is explicit state: the id file is a list of written lines, a
  folder is an association list from file name to stored value.  `pickle`
  serialization is an external collaborator that the spec declares
  byte-for-byte round-trippable, so a stored value is modelled as the value
  itself.
-/

/-- Python exception kinds that the embedded code can raise.  The constructors
`parseError` and `invalidGridSpec` are modelled from the spec: spec §7 names a
ParseError kind (carrying the offending file and line) and an InvalidGridSpec
kind, but the source never defines or raises either; they are included so that
statements can compare the source's behaviour against them. -/
inductive PyExc where
  | zeroDivisionError : PyExc
  | keyError : PyExc
  | indexError : PyExc
  | requestError (message : String) : PyExc
  | parseError (file line : String) : PyExc
  | invalidGridSpec : PyExc
deriving DecidableEq

/-- Equality of `Except` results is decidable when both components are. -/
instance {ε α : Type} [DecidableEq ε] [DecidableEq α] : DecidableEq (Except ε α) := fun a b =>
  match a, b with
  | .error e, .error f =>
    if h : e = f then isTrue (congrArg Except.error h)
    else isFalse (fun c => h (Except.error.inj c))
  | .ok x, .ok y =>
    if h : x = y then isTrue (congrArg Except.ok h)
    else isFalse (fun c => h (Except.ok.inj c))
  | .error _, .ok _ => isFalse Except.noConfusion
  | .ok _, .error _ => isFalse Except.noConfusion

/-- Python `int()` applied to a float: truncation toward zero. -/
def pyInt (q : ℚ) : ℤ := if 0 ≤ q then ⌊q⌋ else ⌈q⌉

/-- The body of the double loop in `gridMaker` (src lines 70-76): the point
appended for loop indices `i`, `j`, where `npx`, `npy` are the Python ints
`int(num_points_x)`, `int(num_points_y)`.  The vector components are
`bottom_right - center` and `top_left - center`. -/
def gridPoint (center topLeft bottomRight : ℚ × ℚ) (npx npy : ℤ) (i j : ℕ) : ℚ × ℚ :=
  (center.1 + ((i : ℚ) / (npx : ℚ)) * (bottomRight.1 - center.1)
            + ((j : ℚ) / (npy : ℚ)) * (topLeft.1 - center.1),
   center.2 + ((i : ℚ) / (npx : ℚ)) * (bottomRight.2 - center.2)
            + ((j : ℚ) / (npy : ℚ)) * (topLeft.2 - center.2))

/-- `gridMaker` (src lines 19-78).  `xStep`, `yStep` are the step arguments in
meters; `vxNorm`, `vyNorm` are the geodesic distances `|C→B|` and `|C→T|` in
kilometers computed by the external geopy library.  Python raises
ZeroDivisionError when `num_points_x` or `num_points_y` divides by a zero step,
and raises ZeroDivisionError at the first body iteration of the loops when
`int(num_points_x)` or `int(num_points_y)` is zero (the body divides `i/npx`
and `j/npy`); when either `range(npx+1)` or `range(npy+1)` is empty the body
never runs and the empty grid is returned. -/
def gridMaker (center topLeft bottomRight : ℚ × ℚ) (xStep yStep : ℚ)
    (vxNorm vyNorm : ℚ) : Except PyExc (List (ℚ × ℚ)) :=
  let xStepKm := xStep / 1000
  let yStepKm := yStep / 1000
  if xStepKm = 0 then .error .zeroDivisionError
  else if yStepKm = 0 then .error .zeroDivisionError
  else
    let npx := pyInt (vxNorm / xStepKm)
    let npy := pyInt (vyNorm / yStepKm)
    if (npx + 1).toNat = 0 ∨ (npy + 1).toNat = 0 then .ok []
    else if npx = 0 ∨ npy = 0 then .error .zeroDivisionError
    else .ok ((List.range (npx + 1).toNat).flatMap (fun i =>
      (List.range (npy + 1).toNat).map (fun j =>
        gridPoint center topLeft bottomRight npx npy i j)))

/-- Modelled from the spec (§4.1 steps 4-5): the row-major grid enumeration
`point(i,j) = C + (i/num_x)·vector_x + (j/num_y)·vector_y` for `i` in
`[0, num_x]` (outer) and `j` in `[0, num_y]` (inner), used to state the
refinement of `gridMaker` against the spec's description. -/
def specGrid (center topLeft bottomRight : ℚ × ℚ) (numX numY : ℕ) : List (ℚ × ℚ) :=
  (List.range (numX + 1)).flatMap (fun (i : ℕ) =>
    (List.range (numY + 1)).map (fun (j : ℕ) =>
      (center.1 + ((i : ℚ) / (numX : ℚ)) * (bottomRight.1 - center.1)
                + ((j : ℚ) / (numY : ℚ)) * (topLeft.1 - center.1),
       center.2 + ((i : ℚ) / (numX : ℚ)) * (bottomRight.2 - center.2)
                + ((j : ℚ) / (numY : ℚ)) * (topLeft.2 - center.2))))

/-- A nearby-search response body: the top-level `status` field (`none` models
a body lacking the field) and the `place_id` of each entry of `results`. -/
structure NearbyResponse where
  status : Option String
  results : List String
deriving DecidableEq

/-- A place-details response body: the `status` field and the opaque `result`
record (the record type is a parameter, the code passes it through). -/
structure DetailResponse (α : Type) where
  status : Option String
  result : α

/-- `request_check` (src lines 14-17): reads `response.json()['status']`
(raising KeyError when the field is missing) and raises
`RequestError("Google API returned the following status: " + status)` unless
the status is `"OK"` or `"ZERO_RESULTS"`. -/
def request_check (status : Option String) : Except PyExc Unit :=
  match status with
  | none => .error .keyError
  | some s =>
    if s ≠ "OK" ∧ s ≠ "ZERO_RESULTS" then
      .error (.requestError ("Google API returned the following status: " ++ s))
    else .ok ()

/-- Whether `request_check` raises on this status field (any exception: the
fault-tolerant callers use a bare `except:`). -/
def checkFails (status : Option String) : Bool :=
  match request_check status with
  | .error _ => true
  | .ok _ => false

/-- `get_ids_from_grid` loop (src lines 109-126) with the accumulated
`list_of_id`: per point the request is checked (an exception propagates,
aborting the batch), then every `place_id` of `results` is appended; at loop
end `list(set(list_of_id))` is returned, modelled by `List.dedup` (same
members, no duplicates; Python's set iteration order is unspecified). -/
def get_ids_loop (grid : List ((ℚ × ℚ) × NearbyResponse)) (acc : List String) :
    Except PyExc (List String) :=
  match grid with
  | [] => .ok acc.dedup
  | (_, r) :: rest =>
    match request_check r.status with
    | .error e => .error e
    | .ok _ => get_ids_loop rest (acc ++ r.results)

/-- `get_ids_from_grid` (src lines 80-128), fail-fast Nearby-Search Collector.
Each grid point is paired with the response body the external service returns
for it. -/
def get_ids_from_grid (grid : List ((ℚ × ℚ) × NearbyResponse)) :
    Except PyExc (List String) :=
  get_ids_loop grid []

/-- The lines `str(i) + " " + place["place_id"] + "\n"` written for grid index
`i` (src line 186). -/
def ids_file_lines (i : ℕ) (results : List String) : List String :=
  results.map (fun pid => toString i ++ " " ++ pid ++ "\n")

/-- `ids_to_file_from_grid` loop (src lines 161-188): `i` is the `enumerate`
index, `errorPoints` the accumulator, `file` the lines written so far.  A
failing check (bare `except:`, so any exception) records the point and
continues; a passing check appends the id lines and then executes the
`return error_points` that sits inside the loop body.  Falling off the end of
the loop returns Python `None`, modelled by the `none` first component. -/
def ids_to_file_loop (grid : List ((ℚ × ℚ) × NearbyResponse)) (i : ℕ)
    (errorPoints : List (ℚ × ℚ)) (file : List String) :
    Option (List (ℚ × ℚ)) × List String :=
  match grid with
  | [] => (none, file)
  | (p, r) :: rest =>
    if checkFails r.status then ids_to_file_loop rest (i + 1) (errorPoints ++ [p]) file
    else (some errorPoints, file ++ ids_file_lines i r.results)

/-- `ids_to_file_from_grid` (src lines 130-188), fault-tolerant Nearby-Search
Collector.  The target file is truncated at the start of the run, so the file
state starts empty. -/
def ids_to_file_from_grid (grid : List ((ℚ × ℚ) × NearbyResponse)) :
    Option (List (ℚ × ℚ)) × List String :=
  ids_to_file_loop grid 0 [] []

/-- The whitespace characters Python `str.split()` (no separator) splits on,
restricted to the ones that occur in the id files. -/
def isPySpace (c : Char) : Bool := c == ' ' || c == '\t' || c == '\n' || c == '\r'

/-- Accumulator recursion behind `pySplit`: `cur` holds the reversed current
token. -/
def splitWsAux : List Char → List Char → List String
  | [], cur => if cur.isEmpty then [] else [String.mk cur.reverse]
  | c :: rest, cur =>
    if isPySpace c then
      if cur.isEmpty then splitWsAux rest []
      else String.mk cur.reverse :: splitWsAux rest []
    else splitWsAux rest (c :: cur)

/-- Python `str.split()` with no separator: split on whitespace runs,
discarding empty pieces. -/
def pySplit (line : String) : List String := splitWsAux line.data []

/-- Inner loop of `get_unique_ids_from_files` (src lines 206-208) over the
lines of one file: `split_line = line.split()` then `ids.append(split_line[1])`,
which raises IndexError when the line has fewer than two tokens. -/
def file_ids_loop (lines : List String) (acc : List String) :
    Except PyExc (List String) :=
  match lines with
  | [] => .ok acc
  | line :: rest =>
    match pySplit line with
    | _ :: snd :: _ => file_ids_loop rest (acc ++ [snd])
    | _ => .error .indexError

/-- Outer loop of `get_unique_ids_from_files` (src lines 203-208) over the
files, each given as its path paired with its lines. -/
def files_ids_loop (files : List (String × List String)) (acc : List String) :
    Except PyExc (List String) :=
  match files with
  | [] => .ok acc
  | (_, lines) :: rest =>
    match file_ids_loop lines acc with
    | .error e => .error e
    | .ok acc2 => files_ids_loop rest acc2

/-- `get_unique_ids_from_files` (src lines 190-209), Identifier Aggregator:
collects the second token of every line of every file and returns
`list(set(ids))`, modelled by `List.dedup`. -/
def get_unique_ids_from_files (files : List (String × List String)) :
    Except PyExc (List String) :=
  match files_ids_loop files [] with
  | .error e => .error e
  | .ok ids => .ok ids.dedup

/-- Writing a file into a folder: `open(name, 'wb')` overwrites an existing
file of the same name, otherwise the folder gains a new file. -/
def folderWrite {α : Type} (folder : List (String × α)) (name : String) (r : α) :
    List (String × α) :=
  if folder.any (fun q => q.1 == name) then
    folder.map (fun q => if q.1 = name then (name, r) else q)
  else folder ++ [(name, r)]

/-- `data_from_ids_to_files` loop (src lines 279-295): per id the request is
checked (bare `except:`, so any exception is recorded and the loop continues);
on success the response's `result` record is pickled into the file
`<id>.pkl` of the target folder. -/
def data_from_ids_loop {α : Type} (ids : List (String × DetailResponse α))
    (errorIds : List String) (folder : List (String × α)) :
    List String × List (String × α) :=
  match ids with
  | [] => (errorIds, folder)
  | (id, r) :: rest =>
    if checkFails r.status then data_from_ids_loop rest (errorIds ++ [id]) folder
    else data_from_ids_loop rest errorIds (folderWrite folder (id ++ ".pkl") r.result)

/-- `data_from_ids_to_files` (src lines 251-296), persist-to-folder Detail
Fetcher.  `folder0` is the pre-existing content of the target folder; each id
is paired with the details response body the external service returns for
it. -/
def data_from_ids_to_files {α : Type} (folder0 : List (String × α))
    (ids : List (String × DetailResponse α)) : List String × List (String × α) :=
  data_from_ids_loop ids [] folder0

/-- `pkl_files_to_list_of_dicts` (src lines 298-320): unpickles every file of
the folder (`os.listdir` order is unspecified; the folder state is kept in
write order). -/
def pkl_files_to_list_of_dicts {α : Type} (folder : List (String × α)) : List α :=
  folder.map (fun q => q.2)

/-- Claim C4: gridMaker with a zero step raises ZeroDivisionError, with a
negative step silently returns an empty grid, and with coincident corners
raises ZeroDivisionError — it never fails with the spec's InvalidGridSpec
error. -/
theorem gridMaker_invalid_spec_behaviour :
    gridMaker (0, 0) (0, 1) (1, 0) 0 1000 1 1 = .error .zeroDivisionError ∧
    gridMaker (0, 0) (0, 1) (1, 0) (-2000) 1000 5 1 = .ok [] ∧
    gridMaker (0, 0) (0, 0) (0, 0) 1000 1000 0 0 = .error .zeroDivisionError := by
  refine ⟨?_, ?_, ?_⟩ <;> norm_num [gridMaker, pyInt, Int.ceil_neg]

/-- Claim C7: with positive steps (1000 m), distinct corners and positive
geodesic distances, but `|C→T|` smaller than the y step, the computed
`num_points_y` truncates to 0 and gridMaker raises ZeroDivisionError instead
of returning a single-row grid. -/
theorem gridMaker_degenerate_axis_error :
    (0 : ℚ) < 1000 ∧ (0 : ℚ) < 1 ∧ (0 : ℚ) < 1 / 2 ∧
    gridMaker (0, 0) (0, 1) (1, 0) 1000 1000 1 (1 / 2) = .error .zeroDivisionError := by
  refine ⟨by norm_num, by norm_num, by norm_num, ?_⟩
  norm_num [gridMaker, pyInt]

/-- Claim C1 counterexample: a grid spec with both steps 1000 m and positive
geodesic distances 1/2 km and 1 km satisfies the claim's hypotheses, yet
gridMaker raises ZeroDivisionError (num_points_x truncates to 0) instead of
returning the claimed (0+1)·(1+1) = 2 points. -/
theorem gridMaker_count_counterexample :
    (0 : ℚ) < 1000 ∧ (0 : ℚ) < 1 / 2 ∧ (0 : ℚ) < 1 ∧
    gridMaker (0, 0) (0, 1) (1, 0) 1000 1000 (1 / 2) 1 = .error .zeroDivisionError := by
  refine ⟨by norm_num, by norm_num, by norm_num, ?_⟩
  norm_num [gridMaker, pyInt]

/-- Claim C5: the fault-tolerant operations use a bare Python `except:`, so a
malformed response lacking the `status` field (whose check raises KeyError,
not RequestError) is swallowed and recorded in the error list instead of
propagating: `ids_to_file_from_grid` records the point (0,0) and goes on to
the next point, and `data_from_ids_to_files` records the id "x" and goes on
to the next id. -/
theorem bare_except_swallows_key_error :
    ids_to_file_from_grid
        [((0, 0), ⟨none, ["a"]⟩), ((0, 1), ⟨some "OK", ["b"]⟩)] =
      (some [(0, 0)], ["1 b\n"]) ∧
    data_from_ids_to_files ([] : List (String × String))
        [("x", ⟨none, "recx"⟩), ("y", ⟨some "OK", "recy"⟩)] =
      (["x"], [("y.pkl", "recy")]) := by
  decide

/-- Claim C8 counterexample: a file whose single line "0\n" has no second
whitespace-separated token makes `get_unique_ids_from_files` fail with a bare
IndexError, not with a ParseError naming the offending file and line. -/
theorem aggregator_malformed_counterexample :
    get_unique_ids_from_files [("f.txt", ["0\n"])] = .error .indexError := by
  decide

/-- A status on which `checkFails` is false passes `request_check`. -/
theorem request_check_eq_ok (st : Option String) (h : checkFails st = false) :
    request_check st = .ok () := by
  unfold checkFails at h
  cases hc : request_check st with
  | error e => rw [hc] at h; exact absurd h (by simp)
  | ok u => cases u; rfl

/-- `ids_to_file_loop` walks past a prefix of failing points, recording each,
and stops at the first passing point, returning the errors recorded so far and
appending only that point's lines to the file. -/
theorem ids_to_file_loop_skips_failures (pre : List ((ℚ × ℚ) × NearbyResponse))
    (p : ℚ × ℚ) (r : NearbyResponse) (post : List ((ℚ × ℚ) × NearbyResponse))
    (i : ℕ) (errs : List (ℚ × ℚ)) (file : List String) :
    (∀ q ∈ pre, checkFails q.2.status = true) → checkFails r.status = false →
    ids_to_file_loop (pre ++ (p, r) :: post) i errs file =
      (some (errs ++ pre.map (fun q => q.1)),
       file ++ ids_file_lines (i + pre.length) r.results) := by
  induction pre generalizing i errs with
  | nil =>
    intro _ hr
    simp [ids_to_file_loop, hr]
  | cons q pre ih =>
    intro hpre hr
    have hq : checkFails q.2.status = true := hpre q (by simp)
    have hrest : ∀ q ∈ pre, checkFails q.2.status = true :=
      fun x hx => hpre x (by simp [hx])
    rcases q with ⟨qp, qr⟩
    rw [List.cons_append, ids_to_file_loop, if_pos hq, ih (i + 1) (errs ++ [qp]) hrest hr]
    have hnat : i + 1 + pre.length = i + (pre.length + 1) := by omega
    simp [hnat, List.append_assoc]

/-- Claim C2: when the grid is a prefix of failing points followed by a point
whose request passes the check, the fault-tolerant collector returns right
after that first successful point (the `return` sits inside the loop body),
with the error points accumulated so far; only that point's id lines are in
the file and the remaining grid points are never processed. -/
theorem ids_to_file_early_return (pre post : List ((ℚ × ℚ) × NearbyResponse))
    (p : ℚ × ℚ) (r : NearbyResponse)
    (hpre : ∀ q ∈ pre, checkFails q.2.status = true)
    (hr : checkFails r.status = false) :
    ids_to_file_from_grid (pre ++ (p, r) :: post) =
      (some (pre.map (fun q => q.1)), ids_file_lines pre.length r.results) := by
  unfold ids_to_file_from_grid
  rw [ids_to_file_loop_skips_failures pre p r post 0 [] [] hpre hr]
  simp

/-- Claim C2 witness: a three-point grid whose first point is denied and whose
second and third points succeed; the collector stops after the second point,
returns the first point as the only error, and writes only the second point's
two ids (with grid index 1). -/
theorem ids_to_file_early_return_witness :
    ids_to_file_from_grid
        [((0, 0), ⟨some "REQUEST_DENIED", ["z"]⟩), ((1, 1), ⟨some "OK", ["a", "b"]⟩),
         ((2, 2), ⟨some "OK", ["c"]⟩)] =
      (some [(0, 0)], ["1 a\n", "1 b\n"]) :=
  (ids_to_file_early_return [((0, 0), ⟨some "REQUEST_DENIED", ["z"]⟩)]
    [((2, 2), ⟨some "OK", ["c"]⟩)] (1, 1) ⟨some "OK", ["a", "b"]⟩
    (by decide) (by decide)).trans (by decide)

/-- When every point of the grid fails the check, `ids_to_file_loop` falls off
the end of the loop: no error list is returned and the file is unchanged. -/
theorem ids_to_file_loop_all_fail (grid : List ((ℚ × ℚ) × NearbyResponse))
    (i : ℕ) (errs : List (ℚ × ℚ)) (file : List String) :
    (∀ q ∈ grid, checkFails q.2.status = true) →
    ids_to_file_loop grid i errs file = (none, file) := by
  induction grid generalizing i errs with
  | nil => intro _; rfl
  | cons q rest ih =>
    intro h
    have hq : checkFails q.2.status = true := h q (by simp)
    rcases q with ⟨qp, qr⟩
    rw [ids_to_file_loop, if_pos hq]
    exact ih (i + 1) (errs ++ [qp]) (fun x hx => h x (by simp [hx]))

/-- Claim C10: when no grid point's request succeeds — the grid is empty or
every point fails the check — `ids_to_file_from_grid` returns Python `None`
instead of an error list, so the recorded failed points are lost to the
caller. -/
theorem ids_to_file_all_fail (grid : List ((ℚ × ℚ) × NearbyResponse))
    (h : ∀ q ∈ grid, checkFails q.2.status = true) :
    ids_to_file_from_grid grid = (none, []) :=
  ids_to_file_loop_all_fail grid 0 [] [] h

/-- Claim C10 witness: a one-point grid whose request is denied yields `none`
(the failed point (0,0) is not reported), and so does the empty grid. -/
theorem ids_to_file_all_fail_witness :
    ids_to_file_from_grid [((0, 0), ⟨some "REQUEST_DENIED", ["z"]⟩)] = (none, []) :=
  ids_to_file_all_fail [((0, 0), ⟨some "REQUEST_DENIED", ["z"]⟩)] (by decide)

/-- `data_from_ids_loop` consumes its whole input: it extends the error
accumulator with exactly the failing ids, in order, and folds one folder write
(file `<id>.pkl` holding the response's record) per succeeding id. -/
theorem data_from_ids_loop_spec {α : Type} (ids : List (String × DetailResponse α))
    (errs : List String) (folder : List (String × α)) :
    data_from_ids_loop ids errs folder =
      (errs ++ (ids.filter (fun q => checkFails q.2.status)).map (fun q => q.1),
       (ids.filter (fun q => !checkFails q.2.status)).foldl
         (fun fol q => folderWrite fol (q.1 ++ ".pkl") q.2.result) folder) := by
  induction ids generalizing errs folder with
  | nil => simp [data_from_ids_loop]
  | cons q rest ih =>
    rcases q with ⟨id, r⟩
    simp only [data_from_ids_loop]
    by_cases h : checkFails r.status = true
    · simp [h, ih, List.filter_cons, List.append_assoc]
    · simp [h, ih, List.filter_cons]

/-- Claim C6: the persist-to-folder Detail Fetcher processes every id of its
input (no early return): the returned error list is exactly the ids whose
check fails, in input order, and the folder receives exactly one write per
succeeding id, of the file `<id>.pkl` holding that id's record. -/
theorem data_from_ids_processes_all {α : Type} (folder0 : List (String × α))
    (ids : List (String × DetailResponse α)) :
    data_from_ids_to_files folder0 ids =
      ((ids.filter (fun q => checkFails q.2.status)).map (fun q => q.1),
       (ids.filter (fun q => !checkFails q.2.status)).foldl
         (fun fol q => folderWrite fol (q.1 ++ ".pkl") q.2.result) folder0) := by
  unfold data_from_ids_to_files
  rw [data_from_ids_loop_spec]
  simp

/-- After writing `r` under `name`, the value `r` is among the stored values
of the folder, whether the write overwrote an existing file or created a new
one. -/
theorem mem_map_snd_folderWrite {α : Type} (folder : List (String × α))
    (name : String) (r : α) :
    r ∈ (folderWrite folder name r).map (fun q => q.2) := by
  unfold folderWrite
  by_cases hany : folder.any (fun q => q.1 == name) = true
  · rw [if_pos hany]
    rcases List.any_eq_true.mp hany with ⟨x, hx, hxname⟩
    rw [List.map_map]
    exact List.mem_map.mpr ⟨x, hx, by simp [eq_of_beq hxname]⟩
  · rw [if_neg hany]
    simp

/-- Claim C9: persisting a record `r` for id `id` into any folder via the
persist-to-folder Detail Fetcher and reading the folder back with
`pkl_files_to_list_of_dicts` yields a collection containing a record equal to
`r` (serialization round-trip; pickle itself is modelled as exact storage). -/
theorem pkl_round_trip {α : Type} (folder0 : List (String × α)) (id : String) (r : α) :
    r ∈ pkl_files_to_list_of_dicts
        (data_from_ids_to_files folder0 [(id, ⟨some "OK", r⟩)]).2 := by
  have hok : checkFails (some "OK") = false := by decide
  simp only [data_from_ids_to_files, data_from_ids_loop, hok, Bool.false_eq_true,
    if_false, pkl_files_to_list_of_dicts]
  exact mem_map_snd_folderWrite folder0 (id ++ ".pkl") r

/-- When every point's check passes, `get_ids_loop` reaches the end of the
grid and returns the deduplicated accumulator extended with every response's
place ids. -/
theorem get_ids_loop_all_ok (grid : List ((ℚ × ℚ) × NearbyResponse))
    (acc : List String) :
    (∀ q ∈ grid, checkFails q.2.status = false) →
    get_ids_loop grid acc = .ok ((acc ++ grid.flatMap (fun q => q.2.results)).dedup) := by
  induction grid generalizing acc with
  | nil => intro _; simp [get_ids_loop]
  | cons q rest ih =>
    intro h
    have hq := request_check_eq_ok q.2.status (h q (by simp))
    rcases q with ⟨qp, qr⟩
    simp only at hq
    simp only [get_ids_loop, hq]
    rw [ih (acc ++ qr.results) (fun x hx => h x (by simp [hx]))]
    simp [List.append_assoc]

/-- When every status field is present and some point's status is neither
"OK" nor "ZERO_RESULTS", `get_ids_loop` aborts with a RequestError carrying
one such reported status. -/
theorem get_ids_loop_bad (grid : List ((ℚ × ℚ) × NearbyResponse)) :
    ∀ acc : List String, (∀ q ∈ grid, q.2.status ≠ none) →
    (∃ q ∈ grid, ∃ s, q.2.status = some s ∧ s ≠ "OK" ∧ s ≠ "ZERO_RESULTS") →
    ∃ s, (∃ q ∈ grid, q.2.status = some s ∧ s ≠ "OK" ∧ s ≠ "ZERO_RESULTS") ∧
      get_ids_loop grid acc =
        .error (.requestError ("Google API returned the following status: " ++ s)) := by
  induction grid with
  | nil => intro acc _ hbad; exact absurd hbad (by simp)
  | cons q rest ih =>
    intro acc hsome hbad
    rcases q with ⟨qp, qr⟩
    cases hst : qr.status with
    | none => exact absurd hst (hsome (qp, qr) (by simp))
    | some s =>
      by_cases hgood : s = "OK" ∨ s = "ZERO_RESULTS"
      · have hok : request_check qr.status = .ok () := by
          rw [hst]
          rcases hgood with h | h <;> simp [request_check, h]
        have hbadrest : ∃ x ∈ rest, ∃ t, x.2.status = some t ∧ t ≠ "OK" ∧ t ≠ "ZERO_RESULTS" := by
          rcases hbad with ⟨x, hx, t, hts, ht1, ht2⟩
          rcases List.mem_cons.mp hx with rfl | hx'
          · simp only at hts
            rw [hst] at hts
            rcases hgood with h | h <;> rw [h] at hts <;> injection hts with he <;>
              first
              | exact absurd he.symm ht1
              | exact absurd he.symm ht2
          · exact ⟨x, hx', t, hts, ht1, ht2⟩
        rcases ih (acc ++ qr.results) (fun x hx => hsome x (by simp [hx])) hbadrest with
          ⟨t, ⟨x, hx, hts⟩, heq⟩
        refine ⟨t, ⟨x, by simp [hx], hts⟩, ?_⟩
        simp only [get_ids_loop, hok]
        exact heq
      · push_neg at hgood
        have hx : ((qp, qr) : (ℚ × ℚ) × NearbyResponse).2.status = some s := hst
        refine ⟨s, ?_, ?_⟩
        · exact ⟨(qp, qr), List.mem_cons_self _ _, hx, hgood.1, hgood.2⟩
        have herr : request_check qr.status =
            .error (.requestError ("Google API returned the following status: " ++ s)) := by
          rw [hst]
          simp only [request_check]
          rw [if_pos ⟨hgood.1, hgood.2⟩]
        simp only [get_ids_loop, herr]

/-- Claim C3: the fail-fast collector returns a RequestError carrying the
reported status string exactly when some point's response status is neither
"OK" nor "ZERO_RESULTS" (statuses being present), and then returns no list at
all; when every point's status is "OK" or "ZERO_RESULTS" it returns a
duplicate-free list whose members are exactly the distinct place ids across
all responses. -/
theorem get_ids_from_grid_spec (grid : List ((ℚ × ℚ) × NearbyResponse)) :
    ((∀ q ∈ grid, q.2.status = some "OK" ∨ q.2.status = some "ZERO_RESULTS") →
      ∃ l, get_ids_from_grid grid = .ok l ∧ l.Nodup ∧
        ∀ pid, (pid ∈ l ↔ ∃ q ∈ grid, pid ∈ q.2.results)) ∧
    ((∀ q ∈ grid, q.2.status ≠ none) →
      (∃ q ∈ grid, ∃ s, q.2.status = some s ∧ s ≠ "OK" ∧ s ≠ "ZERO_RESULTS") →
      ∃ s, (∃ q ∈ grid, q.2.status = some s ∧ s ≠ "OK" ∧ s ≠ "ZERO_RESULTS") ∧
        get_ids_from_grid grid =
          .error (.requestError ("Google API returned the following status: " ++ s))) := by
  constructor
  · intro h
    have hok : checkFails (some "OK") = false := by decide
    have hzr : checkFails (some "ZERO_RESULTS") = false := by decide
    have hall : ∀ q ∈ grid, checkFails q.2.status = false := by
      intro q hq
      rcases h q hq with hs | hs <;> rw [hs] <;> assumption
    refine ⟨(([] : List String) ++ grid.flatMap (fun q => q.2.results)).dedup,
      get_ids_loop_all_ok grid [] hall, List.nodup_dedup _, ?_⟩
    intro pid
    simp [List.mem_dedup, List.mem_flatMap]
  · intro hsome hbad
    exact get_ids_loop_bad grid [] hsome hbad

/-- The concrete grid used to witness claim C3: three points, all successful,
with overlapping place-id sets. -/
def c3Grid : List ((ℚ × ℚ) × NearbyResponse) :=
  [((0, 0), ⟨some "OK", ["a", "b"]⟩), ((0, 1), ⟨some "ZERO_RESULTS", []⟩),
   ((1, 0), ⟨some "OK", ["b", "c"]⟩)]

/-- Claim C3 witness: on a grid of three successful points with overlapping
place-id sets, the fail-fast collector returns a duplicate-free list whose
members are exactly the ids a, b, c. -/
theorem get_ids_from_grid_spec_witness :
    ∃ l, get_ids_from_grid c3Grid = .ok l ∧ l.Nodup ∧
      ∀ pid, (pid ∈ l ↔ ∃ q ∈ c3Grid, pid ∈ q.2.results) :=
  (get_ids_from_grid_spec c3Grid).1 (by decide)

/-- A file containing a line with fewer than two whitespace-separated tokens
makes the per-file loop raise IndexError at `split_line[1]`. -/
theorem file_ids_loop_malformed (lines : List String) :
    ∀ acc : List String, (∃ line ∈ lines, (pySplit line).length < 2) →
    file_ids_loop lines acc = .error .indexError := by
  induction lines with
  | nil => intro acc h; exact absurd h (by simp)
  | cons line rest ih =>
    intro acc h
    cases hsp : pySplit line with
    | nil => simp [file_ids_loop, hsp]
    | cons t1 ts =>
      cases ts with
      | nil => simp [file_ids_loop, hsp]
      | cons t2 ts2 =>
        have hrest : ∃ l ∈ rest, (pySplit l).length < 2 := by
          rcases h with ⟨l, hl, hlen⟩
          rcases List.mem_cons.mp hl with rfl | hl'
          · exfalso; rw [hsp] at hlen; simp at hlen; omega
          · exact ⟨l, hl', hlen⟩
        simp only [file_ids_loop, hsp]
        exact ih (acc ++ [t2]) hrest

/-- A file whose every line has at least two tokens is processed without an
error by the per-file loop. -/
theorem file_ids_loop_wellformed (lines : List String) :
    ∀ acc : List String, (∀ line ∈ lines, 2 ≤ (pySplit line).length) →
    ∃ acc2, file_ids_loop lines acc = .ok acc2 := by
  induction lines with
  | nil => intro acc _; exact ⟨acc, rfl⟩
  | cons line rest ih =>
    intro acc h
    have hlen : 2 ≤ (pySplit line).length := h line (by simp)
    cases hsp : pySplit line with
    | nil => exfalso; rw [hsp] at hlen; simp at hlen
    | cons t1 ts =>
      cases ts with
      | nil => exfalso; rw [hsp] at hlen; simp at hlen
      | cons t2 ts2 =>
        rcases ih (acc ++ [t2]) (fun l hl => h l (by simp [hl])) with ⟨acc2, hacc⟩
        refine ⟨acc2, ?_⟩
        simp only [file_ids_loop, hsp]
        exact hacc

/-- If any file of the input contains a malformed line, the outer loop of the
aggregator raises IndexError. -/
theorem files_ids_loop_malformed (files : List (String × List String)) :
    ∀ acc : List String, (∃ f ∈ files, ∃ line ∈ f.2, (pySplit line).length < 2) →
    files_ids_loop files acc = .error .indexError := by
  induction files with
  | nil => intro acc h; exact absurd h (by simp)
  | cons f rest ih =>
    intro acc h
    rcases f with ⟨name, lines⟩
    by_cases hf : ∃ line ∈ lines, (pySplit line).length < 2
    · simp only [files_ids_loop, file_ids_loop_malformed lines acc hf]
    · push_neg at hf
      rcases file_ids_loop_wellformed lines acc (fun l hl => hf l hl) with ⟨acc2, hacc⟩
      simp only [files_ids_loop, hacc]
      apply ih
      rcases h with ⟨g, hg, l, hl, hlen⟩
      rcases List.mem_cons.mp hg with rfl | hg'
      · exact absurd hlen (not_lt.mpr (hf l hl))
      · exact ⟨g, hg', l, hl, hlen⟩

/-- Claim C8 (amended): an input file set containing a malformed line — one
with no second whitespace-separated token — makes
`get_unique_ids_from_files` fail loudly, with the bare IndexError that
`split_line[1]` raises, rather than silently skipping the line. -/
theorem aggregator_malformed_fails (files : List (String × List String))
    (h : ∃ f ∈ files, ∃ line ∈ f.2, (pySplit line).length < 2) :
    get_unique_ids_from_files files = .error .indexError := by
  unfold get_unique_ids_from_files
  rw [files_ids_loop_malformed files [] h]

/-- Claim C8 witness: a well-formed file followed by a file whose second line
"2\n" lacks a second token makes the aggregator fail with IndexError. -/
theorem aggregator_malformed_fails_witness :
    get_unique_ids_from_files
        [("good.txt", ["0 abc\n"]), ("bad.txt", ["1 def\n", "2\n"])] =
      .error .indexError :=
  aggregator_malformed_fails
    [("good.txt", ["0 abc\n"]), ("bad.txt", ["1 def\n", "2\n"])] (by decide)

/-- The spec-side enumeration has exactly `(numX+1)·(numY+1)` points. -/
theorem specGrid_length (c t b : ℚ × ℚ) (nx ny : ℕ) :
    (specGrid c t b nx ny).length = (nx + 1) * (ny + 1) := by
  rw [specGrid, List.length_flatMap]
  simp only [Function.comp_def, List.length_map, List.length_range]
  rw [List.map_const', List.sum_replicate, smul_eq_mul, List.length_range]

/-- The first point of the spec-side enumeration is the center corner,
exactly. -/
theorem specGrid_head (c t b : ℚ × ℚ) (nx ny : ℕ) :
    (specGrid c t b nx ny).head? = some c := by
  simp [specGrid, List.range_succ_eq_map, List.flatMap_cons, List.cons_append]

/-- With positive steps and both floors at least 1, `gridMaker` succeeds and
returns exactly the spec's row-major enumeration with
`num_x = ⌊|C→B|/(step_x/1000)⌋` and `num_y = ⌊|C→T|/(step_y/1000)⌋`. -/
theorem gridMaker_refines (center topLeft bottomRight : ℚ × ℚ)
    (xStep yStep vxNorm vyNorm : ℚ) (hx : 0 < xStep) (hy : 0 < yStep)
    (hnx : 1 ≤ ⌊vxNorm / (xStep / 1000)⌋) (hny : 1 ≤ ⌊vyNorm / (yStep / 1000)⌋) :
    gridMaker center topLeft bottomRight xStep yStep vxNorm vyNorm =
      .ok (specGrid center topLeft bottomRight
        ⌊vxNorm / (xStep / 1000)⌋.toNat ⌊vyNorm / (yStep / 1000)⌋.toNat) := by
  have hkx : xStep / 1000 ≠ 0 := ne_of_gt (by positivity)
  have hky : yStep / 1000 ≠ 0 := ne_of_gt (by positivity)
  have hqx : (0 : ℚ) ≤ vxNorm / (xStep / 1000) := by
    have h1 : ((1 : ℤ) : ℚ) ≤ vxNorm / (xStep / 1000) := Int.le_floor.mp hnx
    push_cast at h1
    linarith
  have hqy : (0 : ℚ) ≤ vyNorm / (yStep / 1000) := by
    have h1 : ((1 : ℤ) : ℚ) ≤ vyNorm / (yStep / 1000) := Int.le_floor.mp hny
    push_cast at h1
    linarith
  have hpx : pyInt (vxNorm / (xStep / 1000)) = ⌊vxNorm / (xStep / 1000)⌋ := if_pos hqx
  have hpy : pyInt (vyNorm / (yStep / 1000)) = ⌊vyNorm / (yStep / 1000)⌋ := if_pos hqy
  set nx : ℤ := ⌊vxNorm / (xStep / 1000)⌋ with hnxdef
  set ny : ℤ := ⌊vyNorm / (yStep / 1000)⌋ with hnydef
  have hcond1 : ¬((nx + 1).toNat = 0 ∨ (ny + 1).toNat = 0) := by omega
  have hcond2 : ¬(nx = 0 ∨ ny = 0) := by omega
  have htx : (nx + 1).toNat = nx.toNat + 1 := by omega
  have hty : (ny + 1).toNat = ny.toNat + 1 := by omega
  have hcx : ((nx.toNat : ℕ) : ℚ) = ((nx : ℤ) : ℚ) := by
    exact_mod_cast congrArg (fun z : ℤ => (z : ℚ)) (Int.toNat_of_nonneg (by omega))
  have hcy : ((ny.toNat : ℕ) : ℚ) = ((ny : ℤ) : ℚ) := by
    exact_mod_cast congrArg (fun z : ℤ => (z : ℚ)) (Int.toNat_of_nonneg (by omega))
  have hpoint : ∀ i j : ℕ, gridPoint center topLeft bottomRight nx ny i j =
      (center.1 + ((i : ℚ) / (nx.toNat : ℚ)) * (bottomRight.1 - center.1)
                + ((j : ℚ) / (ny.toNat : ℚ)) * (topLeft.1 - center.1),
       center.2 + ((i : ℚ) / (nx.toNat : ℚ)) * (bottomRight.2 - center.2)
                + ((j : ℚ) / (ny.toNat : ℚ)) * (topLeft.2 - center.2)) := by
    intro i j
    rw [gridPoint, hcx, hcy]
  simp only [gridMaker, hpx, hpy, if_neg hkx, if_neg hky, if_neg hcond1, if_neg hcond2]
  rw [specGrid]
  simp only [htx, hty, hpoint]

/-- Claim C1 (amended): for a grid spec with positive steps, positive geodesic
distances and both floors `⌊|C→B|/(step_x/1000)⌋`, `⌊|C→T|/(step_y/1000)⌋` at
least 1, `gridMaker` returns exactly the spec's deterministic row-major
enumeration (i outer, j inner), whose length is
`(floor_x + 1) · (floor_y + 1)` and whose first point equals the center corner
exactly. -/
theorem gridMaker_count_first_point (center topLeft bottomRight : ℚ × ℚ)
    (xStep yStep vxNorm vyNorm : ℚ) (hx : 0 < xStep) (hy : 0 < yStep)
    (hvx : 0 < vxNorm) (hvy : 0 < vyNorm)
    (hnx : 1 ≤ ⌊vxNorm / (xStep / 1000)⌋) (hny : 1 ≤ ⌊vyNorm / (yStep / 1000)⌋) :
    gridMaker center topLeft bottomRight xStep yStep vxNorm vyNorm =
      .ok (specGrid center topLeft bottomRight
        ⌊vxNorm / (xStep / 1000)⌋.toNat ⌊vyNorm / (yStep / 1000)⌋.toNat) ∧
    (specGrid center topLeft bottomRight
        ⌊vxNorm / (xStep / 1000)⌋.toNat ⌊vyNorm / (yStep / 1000)⌋.toNat).length =
      (⌊vxNorm / (xStep / 1000)⌋.toNat + 1) * (⌊vyNorm / (yStep / 1000)⌋.toNat + 1) ∧
    (specGrid center topLeft bottomRight
        ⌊vxNorm / (xStep / 1000)⌋.toNat ⌊vyNorm / (yStep / 1000)⌋.toNat).head? =
      some center :=
  ⟨gridMaker_refines center topLeft bottomRight xStep yStep vxNorm vyNorm hx hy hnx hny,
   specGrid_length center topLeft bottomRight _ _,
   specGrid_head center topLeft bottomRight _ _⟩

/-- Claim C1 witness: corners (0,0), (0,1), (1,0), both steps 1000 m and
geodesic distances 2 km and 3 km give floors 2 and 3, so the grid has
3 · 4 = 12 points and starts at the center corner. -/
theorem gridMaker_count_first_point_witness :
    gridMaker (0, 0) (0, 1) (1, 0) 1000 1000 2 3 =
      .ok (specGrid (0, 0) (0, 1) (1, 0)
        ⌊(2 : ℚ) / (1000 / 1000)⌋.toNat ⌊(3 : ℚ) / (1000 / 1000)⌋.toNat) ∧
    (specGrid (0, 0) (0, 1) (1, 0)
        ⌊(2 : ℚ) / (1000 / 1000)⌋.toNat ⌊(3 : ℚ) / (1000 / 1000)⌋.toNat).length =
      (⌊(2 : ℚ) / (1000 / 1000)⌋.toNat + 1) * (⌊(3 : ℚ) / (1000 / 1000)⌋.toNat + 1) ∧
    (specGrid (0, 0) (0, 1) (1, 0)
        ⌊(2 : ℚ) / (1000 / 1000)⌋.toNat ⌊(3 : ℚ) / (1000 / 1000)⌋.toNat).head? =
      some (0, 0) :=
  gridMaker_count_first_point (0, 0) (0, 1) (1, 0) 1000 1000 2 3
    (by norm_num) (by norm_num) (by norm_num) (by norm_num)
    (by norm_num) (by norm_num)
